import Mathlib

/-!
Shallow embedding of the concurrent-mutation / real-time-synchronization core
of the cvgd repository (Express + SQLite real-estate map backend).

Source files embedded here:
  - real-estate-map/backend/db.js        (SQLite persistence adapter)
  - real-estate-map/backend/emailService.js (feature-request mail, outcome modelled)
  - the Express server (REST handlers, JWT middleware, socket broadcast)
  - the React client socket handlers (local-cache reconciliation)

Conventions: JavaScript numbers that the claims exercise are modelled as
integers (counters, ids, values) except coordinates, which are modelled as
finite decimal numbers (the shape JavaScript prints for latitude/longitude
literals) because the persistence round-trip is about their textual encoding.
Fallible persistence calls return Except; request handlers return a record
with the HTTP status, the successor database state and the list of emitted
broadcast events.
-/

namespace Cvgd

/-! ## Decimal numbers and their JSON textual form

A coordinate number is a finite decimal `m / 10^e` (mantissa and number of
decimal places), the value domain of JavaScript number literals such as
`40.035` and `-83.025` as printed by `JSON.stringify`.  `printNum` mirrors
the decimal rendering (`40.035`, `-0.5`, `120`), `parseNum` the numeric
grammar accepted back by `JSON.parse` on such output. -/

structure JNum where
  m : Int
  e : Nat
deriving DecidableEq

def digitChar (d : Nat) : Char := Char.ofNat (d + 48)

def charDigit (c : Char) : Nat := c.toNat - 48

/-- Decimal digit characters of a natural number, most significant first
(empty for zero; zero-padding is added by the caller).  Written with
structural fuel so that concrete instances reduce in the kernel. -/

def natCharsAux : Nat → Nat → List Char
  | 0, _ => []
  | fuel + 1, n => if n = 0 then [] else natCharsAux fuel (n / 10) ++ [digitChar (n % 10)]

def natChars (n : Nat) : List Char := natCharsAux n n

/-- Value of a digit string, most significant first. -/

def digitsToNat (s : List Char) : Nat := Nat.ofDigits 10 (s.map charDigit).reverse

/-- Left-pad a digit string with zeros to length at least k. -/

def zeroPad (k : Nat) (s : List Char) : List Char :=
  List.replicate (k - s.length) '0' ++ s

/-- Render `m / 10^e` (m, e natural) the way JavaScript prints it:
all digits when e = 0, otherwise a decimal point before the last e digits,
with the integer part zero-padded (so 35/10^3 prints as 0.035). -/

def printUnsigned (m e : Nat) : List Char :=
  let ds := zeroPad (e + 1) (natChars m)
  if e = 0 then ds else ds.take (ds.length - e) ++ '.' :: ds.drop (ds.length - e)

/-- Parse an unsigned decimal token (digits, optionally a point and more
digits); the whole input must be consumed. -/

def parseUnsigned (s : List Char) : Option (Nat × Nat) :=
  let ip := s.takeWhile (·.isDigit)
  let rest := s.dropWhile (·.isDigit)
  if ip.isEmpty then none
  else
    match rest with
    | [] => some (digitsToNat ip, 0)
    | '.' :: fp =>
        if fp ≠ [] ∧ fp.all (·.isDigit) then some (digitsToNat (ip ++ fp), fp.length)
        else none
    | _ => none

def printNum (x : JNum) : List Char :=
  if x.m < 0 then '-' :: printUnsigned x.m.natAbs x.e
  else printUnsigned x.m.natAbs x.e

def parseNum (s : List Char) : Option JNum :=
  match s with
  | [] => none
  | c :: rest =>
      if c = '-' then (parseUnsigned rest).map (fun p => ⟨-(p.1 : Int), p.2⟩)
      else (parseUnsigned (c :: rest)).map (fun p => ⟨(p.1 : Int), p.2⟩)

/-! ## JSON numeric arrays

The persistence adapter stores a coordinate pair with
`JSON.stringify(coordinates)` (db.js createProperty / updateProperty) and
reads it back with `JSON.parse(row.coordinates)` (getPropertyById /
getAllProperties).  For an array of numbers the stringify output is
`[n1,n2,...]` with no whitespace; we model the stringify/parse pair on
(nonempty) numeric arrays, the only coordinate shapes the application
writes. -/

def joinComma : List (List Char) → List Char
  | [] => []
  | [x] => x
  | x :: y :: ys => x ++ ',' :: joinComma (y :: ys)

def splitComma : List Char → List (List Char)
  | [] => [[]]
  | c :: rest =>
      match splitComma rest with
      | [] => [[]]
      | g :: gs => if c = ',' then [] :: g :: gs else (c :: g) :: gs

def encodeCoordsL (cs : List JNum) : List Char :=
  '[' :: (joinComma (cs.map printNum) ++ [']'])

def parseCoordsL (s : List Char) : Option (List JNum) :=
  match s with
  | '[' :: rest =>
      if rest.getLast? = some ']' then (splitComma rest.dropLast).mapM parseNum
      else none
  | _ => none

/-- String-level stringify, as stored in the coordinates TEXT column. -/

def stringifyCoords (cs : List JNum) : String := ⟨encodeCoordsL cs⟩

/-- String-level parse of the coordinates TEXT column. -/

def parseCoords (s : String) : Option (List JNum) := parseCoordsL s.data

/-! ## JavaScript truthiness helpers

The backend leans on `a || b` defaulting; undefined, null, the empty string
and 0 are falsy.  Optional fields model present/absent (undefined); the
null/undefined distinction is not observable in the embedded paths. -/

def jsOrStr (a : Option String) (b : String) : String :=
  match a with
  | some s => if s = "" then b else s
  | none => b

def jsOrInt (a : Option Int) (b : Int) : Int :=
  match a with
  | some v => if v = 0 then b else v
  | none => b

/-- Models `v || 0` on an integer already known to be a number. -/

def jsNumOr0 (v : Int) : Int := if v = 0 then 0 else v

/-- Models `x || null` for an optional integer (0 collapses to null). -/

def jsOrNullInt (a : Option Int) : Option Int :=
  match a with
  | some v => if v = 0 then none else some v
  | none => none

/-- Models `x || null` for an optional id (0 collapses to null). -/

def jsOrNullNat (a : Option Nat) : Option Nat :=
  match a with
  | some v => if v = 0 then none else some v
  | none => none

/-- Models `x || null` for an optional string ("" collapses to null). -/

def jsOrNullStr (a : Option String) : Option String :=
  match a with
  | some s => if s = "" then none else some s
  | none => none

/-- JS truthiness of an optional string field. -/

def jsTruthyStr (a : Option String) : Bool :=
  match a with
  | some s => s ≠ ""
  | none => false

/-- Models JavaScript String.prototype.trim: strip leading and trailing
whitespace. -/

def jsTrim (s : String) : String :=
  ⟨((s.data.dropWhile Char.isWhitespace).reverse.dropWhile Char.isWhitespace).reverse⟩

/-! ## Data model (db.js)

The properties table row (timestamps are not modelled: no embedded claim
reads them) and the API-level property object produced by
getPropertyById / getAllProperties.  Counters are integers: the schema
declares INTEGER DEFAULT 0 with no sign constraint, and updateProperty
writes client-supplied values verbatim. -/

structure PropRow where
  id : Nat
  address : String
  zoning : Option String
  value : Option Int
  notes : Option String
  tax_value : Option Int
  assessed_value : Option Int
  cap_rate : Option Int
  monthly_payment : Option Int
  coordinates : Option String
  thumbs_up : Int
  thumbs_down : Int
  created_by : Option Nat
  created_by_name : Option String
deriving DecidableEq

structure Property where
  id : Nat
  address : String
  zoning : Option String
  value : Option Int
  notes : String
  taxValue : Option Int
  assessedValue : Option Int
  capRate : Option Int
  monthlyPayment : Option Int
  position : Option (List JNum)
  coordinates : Option (List JNum)
  thumbsUp : Int
  thumbsDown : Int
  createdBy : Option Nat
  createdByName : Option String
deriving DecidableEq

/-- Users table row.  The password hash column is not modelled: bcrypt is an
external collaborator and no embedded claim reads the credential. -/

structure UserRow where
  id : Nat
  email : String
  name : String
  username : Option String
  first_name : Option String
  last_name : Option String
  role : String
  active : Bool
deriving DecidableEq

structure DB where
  props : List PropRow
  nextPropId : Nat
  users : List UserRow
deriving DecidableEq

/-- Row-to-API transformation done by getPropertyById / getAllProperties:
notes defaulted to '', the coordinates TEXT column JSON-parsed into both
position and coordinates, thumbs defaulted with `|| 0`. -/

def rowToProperty (row : PropRow) : Property :=
  { id := row.id
    address := row.address
    zoning := row.zoning
    value := row.value
    notes := (jsOrStr row.notes "")
    taxValue := row.tax_value
    assessedValue := row.assessed_value
    capRate := row.cap_rate
    monthlyPayment := row.monthly_payment
    position := row.coordinates.bind parseCoords
    coordinates := row.coordinates.bind parseCoords
    thumbsUp := jsNumOr0 row.thumbs_up
    thumbsDown := jsNumOr0 row.thumbs_down
    createdBy := row.created_by
    createdByName := row.created_by_name }

/-- SELECT ... FROM properties WHERE id = ?, then the row transformation. -/

def getPropertyById (db : DB) (id : Nat) : Option Property :=
  (db.props.find? (fun r => r.id == id)).map rowToProperty

/-- Input record accepted by Database.createProperty. -/

structure PropInput where
  address : Option String := none
  zoning : Option String := none
  value : Option Int := none
  notes : Option String := none
  taxValue : Option Int := none
  assessedValue : Option Int := none
  capRate : Option Int := none
  monthlyPayment : Option Int := none
  coordinates : Option (List JNum) := none
  position : Option (List JNum) := none
  thumbsUp : Option Int := none
  thumbsDown : Option Int := none
  createdBy : Option Nat := none
  createdByName : Option String := none
deriving DecidableEq

/-- Storage-level failures surfaced to the route handlers' catch blocks. -/

inductive DbErr where
  | notNull (column : String)
  | uniqueViolation (message : String)
deriving DecidableEq

/-- Database.createProperty: stringify the coordinate pair, INSERT with the
`||` defaults of db.js, then re-read the inserted row (db.js does this via
getPropertyById(this.lastID); with a fresh id that read returns exactly the
inserted row, which is what we return).  A missing address violates the
NOT NULL column constraint and rejects the promise. -/

def createProperty (db : DB) (property : PropInput) : Except DbErr (DB × Property) :=
  let coordinates := property.coordinates.orElse (fun _ => property.position)
  let coordinatesJson := coordinates.map stringifyCoords
  match property.address with
  | none => .error (.notNull "address")
  | some addr =>
      let row : PropRow :=
        { id := db.nextPropId
          address := addr
          zoning := some (jsOrStr property.zoning "Residential")
          value := some (jsOrInt property.value 200000)
          notes := some (jsOrStr property.notes "")
          tax_value := jsOrNullInt property.taxValue
          assessed_value := jsOrNullInt property.assessedValue
          cap_rate := jsOrNullInt property.capRate
          monthly_payment := jsOrNullInt property.monthlyPayment
          coordinates := coordinatesJson
          thumbs_up := jsOrInt property.thumbsUp 0
          thumbs_down := jsOrInt property.thumbsDown 0
          created_by := jsOrNullNat property.createdBy
          created_by_name := jsOrNullStr property.createdByName }
      .ok ({ db with props := db.props ++ [row], nextPropId := db.nextPropId + 1 },
        rowToProperty row)

/-- Update record accepted by Database.updateProperty (exactly the fields its
column-by-column presence checks cover). -/

structure PropUpdates where
  address : Option String := none
  zoning : Option String := none
  value : Option Int := none
  notes : Option String := none
  taxValue : Option Int := none
  assessedValue : Option Int := none
  capRate : Option Int := none
  monthlyPayment : Option Int := none
  coordinates : Option (List JNum) := none
  position : Option (List JNum) := none
  thumbsUp : Option Int := none
  thumbsDown : Option Int := none
deriving DecidableEq

/-- Column assignments of the UPDATE statement: every field present in the
update record is written verbatim (thumbs counters included). -/

def applyUpdates (row : PropRow) (u : PropUpdates) : PropRow :=
  { row with
    address := u.address.getD row.address
    zoning := (u.zoning.map some).getD row.zoning
    value := (u.value.map some).getD row.value
    notes := (u.notes.map some).getD row.notes
    tax_value := (u.taxValue.map some).getD row.tax_value
    assessed_value := (u.assessedValue.map some).getD row.assessed_value
    cap_rate := (u.capRate.map some).getD row.cap_rate
    monthly_payment := (u.monthlyPayment.map some).getD row.monthly_payment
    coordinates :=
      match u.coordinates.orElse (fun _ => u.position) with
      | some cs => some (stringifyCoords cs)
      | none => row.coordinates
    thumbs_up := u.thumbsUp.getD row.thumbs_up
    thumbs_down := u.thumbsDown.getD row.thumbs_down }

/-- Database.updateProperty: UPDATE the row with the given id (the statement
with zero assignments is skipped by db.js, which is extensionally the same
state), then re-read the row. -/

def updateProperty (db : DB) (id : Nat) (u : PropUpdates) : DB × Option Property :=
  let db' : DB :=
    { db with props := db.props.map (fun r => if r.id = id then applyUpdates r u else r) }
  (db', getPropertyById db' id)

/-- Database.deleteProperty: DELETE WHERE id = ?, reporting whether a row
was removed (this.changes > 0). -/

def deleteProperty (db : DB) (id : Nat) : DB × Bool :=
  ({ db with props := db.props.filter (fun r => !(r.id == id)) },
    db.props.any (fun r => r.id == id))

/-- Database.deleteAllProperties: DELETE FROM properties, reporting the
number of removed rows. -/

def deleteAllProperties (db : DB) : DB × Nat :=
  ({ db with props := [] }, db.props.length)

/-- SELECT ... FROM users WHERE id = ? AND active = 1. -/

def getUserById (db : DB) (id : Nat) : Option UserRow :=
  db.users.find? (fun u => u.id == id && u.active)

/-- Update record accepted by Database.updateUser.  The password branch is
omitted: bcrypt hashing is external and salted (not a pure function), and no
embedded claim reads the credential. -/

structure UserUpdates where
  name : Option String := none
  email : Option String := none
  username : Option String := none
  first_name : Option String := none
  last_name : Option String := none
  role : Option String := none
  active : Option Bool := none
deriving DecidableEq

def hasUserUpdateFields (u : UserUpdates) : Bool :=
  u.name.isSome || u.email.isSome || u.username.isSome || u.first_name.isSome ||
    u.last_name.isSome || u.role.isSome || u.active.isSome

def applyUserUpdates (w : UserRow) (u : UserUpdates) : UserRow :=
  { w with
    name := u.name.getD w.name
    email := u.email.getD w.email
    username := (u.username.map some).getD w.username
    first_name := (u.first_name.map some).getD w.first_name
    last_name := (u.last_name.map some).getD w.last_name
    role := u.role.getD w.role
    active := u.active.getD w.active }

/-- Database.updateUser: resolve null when no updatable field is present
(without touching storage); otherwise run the UPDATE — rejected by the
UNIQUE constraints when the new email/username collides with another row —
and re-read the user through the active-only getUserById. -/

def updateUser (db : DB) (id : Nat) (u : UserUpdates) :
    Except DbErr (DB × Option UserRow) :=
  if !hasUserUpdateFields u then .ok (db, none)
  else
    let emailClash := match u.email with
      | some em => db.users.any (fun w => !(w.id == id) && w.email == em)
      | none => false
    let usernameClash := match u.username with
      | some un => db.users.any (fun w => !(w.id == id) && w.username == some un)
      | none => false
    if usernameClash then .error (.uniqueViolation "User with this username already exists")
    else if emailClash then .error (.uniqueViolation "User with this email already exists")
    else
      let db' : DB :=
        { db with users := db.users.map (fun w => if w.id = id then applyUserUpdates w u else w) }
      .ok (db', getUserById db' id)

/-- Database.deleteUser: soft delete, UPDATE users SET active = 0 WHERE id = ?. -/

def deleteUser (db : DB) (id : Nat) : DB :=
  { db with users := db.users.map (fun w => if w.id = id then { w with active := false } else w) }

/-! ## Authentication middleware (server.js)

A presented token carries the signed claims plus the two ways jwt.verify
(jsonwebtoken library, external) can fail on it: bad signature or expiry. -/

structure Claims where
  id : Nat
  email : String
  name : String
  role : String
deriving DecidableEq

structure Token where
  claims : Claims
  sigValid : Bool
  expired : Bool
deriving DecidableEq

inductive AuthOutcome where
  | reject (status : Nat) (errorMsg : String)
  | accept (user : Claims)
deriving DecidableEq

/-- The authenticateToken middleware: 401 when no token is presented,
jwt.verify otherwise — its error callback (invalid signature or expired)
answers 403 with 'Invalid or expired token'. -/

def authenticateToken (tok : Option Token) : AuthOutcome :=
  match tok with
  | none => .reject 401 "Access token required"
  | some t =>
      if t.sigValid && !t.expired then .accept t.claims
      else .reject 403 "Invalid or expired token"

/-- The requireAdmin middleware, applied after authenticateToken. -/

def requireAdmin (user : Claims) : Option (Nat × String) :=
  if user.role = "admin" then none else some (403, "Admin access required")

/-! ## Property routes (server.js)

Each handler returns the HTTP status, the successor database state and the
socket events emitted (io.emit calls), plus the JSON payload pieces the
claims read. -/

inductive Ev where
  | propertyCreated (p : Property)
  | propertyUpdated (p : Property)
  | propertyDeleted (id : Nat)
  | allPropertiesDeleted (count : Nat)
deriving DecidableEq

structure HRes where
  status : Nat
  db : DB
  events : List Ev
  property : Option Property := none
  errorMsg : Option String := none
deriving DecidableEq

/-- The response transformation applied before emitting/answering: both
coordinates and position populated from whichever is present. -/

def transformProperty (p : Property) : Property :=
  { p with
    coordinates := p.coordinates.orElse (fun _ => p.position)
    position := p.position.orElse (fun _ => p.coordinates) }

structure VoteBody where
  vote : Option String := none
  direction : Option String := none
deriving DecidableEq

/-- POST /api/properties/:id/vote.  The handler destructures `vote` from the
request body, 404s when the id is absent, 400s on any value other than
"up"/"down", and otherwise writes back (existing counter || 0) + 1 through
updateProperty. -/

def votePropertyHandler (db : DB) (idParam : Nat) (body : VoteBody) : HRes :=
  match getPropertyById db idParam with
  | none => { status := 404, db := db, events := [], errorMsg := some "Property not found" }
  | some existingProperty =>
      let updates : Option PropUpdates :=
        if body.vote = some "up" then
          some { thumbsUp := some (jsNumOr0 existingProperty.thumbsUp + 1) }
        else if body.vote = some "down" then
          some { thumbsDown := some (jsNumOr0 existingProperty.thumbsDown + 1) }
        else none
      match updates with
      | none =>
          { status := 400, db := db, events := []
            errorMsg := some "Invalid vote. Must be \x22up\x22 or \x22down\x22" }
      | some u =>
          match updateProperty db idParam u with
          | (db', some updatedProperty) =>
              let tp := transformProperty updatedProperty
              { status := 200, db := db', events := [.propertyUpdated tp], property := some tp }
          | (db', none) =>
              { status := 500, db := db', events := []
                errorMsg := some "Failed to vote on property" }

/-- PUT /api/properties/:id: 404 when the id is absent, otherwise a spread of
the request body with coordinates/position backfilled from the existing
property, applied through updateProperty and broadcast as propertyUpdated. -/

def putPropertyHandler (db : DB) (idParam : Nat) (body : PropUpdates) : HRes :=
  match getPropertyById db idParam with
  | none => { status := 404, db := db, events := [], errorMsg := some "Property not found" }
  | some existingProperty =>
      let updates : PropUpdates :=
        { body with
          coordinates := (body.coordinates.orElse (fun _ => body.position)).orElse
            (fun _ => existingProperty.coordinates)
          position := (body.coordinates.orElse (fun _ => body.position)).orElse
            (fun _ => existingProperty.position) }
      match updateProperty db idParam updates with
      | (db', some updatedProperty) =>
          let tp := transformProperty updatedProperty
          { status := 200, db := db', events := [.propertyUpdated tp], property := some tp }
      | (db', none) =>
          { status := 500, db := db', events := []
            errorMsg := some "Failed to update property" }

structure CreateBody where
  address : Option String := none
  zoning : Option String := none
  value : Option Int := none
  notes : Option String := none
  taxValue : Option Int := none
  assessedValue : Option Int := none
  capRate : Option Int := none
  monthlyPayment : Option Int := none
  coordinates : Option (List JNum) := none
  position : Option (List JNum) := none
deriving DecidableEq

/-- POST /api/properties (behind authenticateToken): builds propertyData with
the `||` defaults and the creator stamp from the token claims, inserts it,
broadcasts propertyCreated, answers 201.  A createProperty rejection is
caught and answered 500. -/

def postPropertyHandler (db : DB) (user : Claims) (body : CreateBody) : HRes :=
  let userName := jsOrStr (some user.name) user.email
  let propertyData : PropInput :=
    { address := body.address
      zoning := some (jsOrStr body.zoning "Residential")
      value := some (jsOrInt body.value 200000)
      notes := some (jsOrStr body.notes "")
      taxValue := body.taxValue
      assessedValue := body.assessedValue
      capRate := body.capRate
      monthlyPayment := body.monthlyPayment
      coordinates := body.coordinates.orElse (fun _ => body.position)
      position := body.coordinates.orElse (fun _ => body.position)
      createdBy := some user.id
      createdByName := some userName }
  match createProperty db propertyData with
  | .error _ =>
      { status := 500, db := db, events := []
        errorMsg := some "Failed to create property" }
  | .ok (db', newProperty) =>
      let tp := transformProperty newProperty
      { status := 201, db := db', events := [.propertyCreated tp], property := some tp }

/-- POST /api/properties route: authenticateToken then the handler. -/

def postPropertyRoute (db : DB) (tok : Option Token) (body : CreateBody) : HRes :=
  match authenticateToken tok with
  | .reject s m => { status := s, db := db, events := [], errorMsg := some m }
  | .accept user => postPropertyHandler db user body

/-- DELETE /api/properties/:id (behind authenticateToken + requireAdmin). -/

def deletePropertyHandler (db : DB) (idParam : Nat) : HRes :=
  match deleteProperty db idParam with
  | (db', true) => { status := 200, db := db', events := [.propertyDeleted idParam] }
  | (_, false) =>
      { status := 404, db := db, events := [], errorMsg := some "Property not found" }

/-- DELETE /api/properties (behind authenticateToken + requireAdmin). -/

def deleteAllPropertiesHandler (db : DB) : HRes :=
  match deleteAllProperties db with
  | (db', count) => { status := 200, db := db', events := [.allPropertiesDeleted count] }

/-! ## User-management routes (server.js, behind authenticateToken + requireAdmin) -/

structure URes where
  status : Nat
  db : DB
  user : Option UserRow := none
  errorMsg : Option String := none
deriving DecidableEq

/-- PUT /api/users/:id: rejects changing your own role (a truthy role field
on your own id), otherwise applies Database.updateUser; a null result (no
fields, or the updated row invisible to the active-only re-read) answers
404, an updateUser rejection is caught and answered 500. -/

def putUserHandler (db : DB) (user : Claims) (idParam : Nat) (updates : UserUpdates) : URes :=
  if jsTruthyStr updates.role && (idParam == user.id) then
    { status := 400, db := db, errorMsg := some "Cannot change your own role" }
  else
    match updateUser db idParam updates with
    | .error _ => { status := 500, db := db, errorMsg := some "Failed to update user" }
    | .ok (db', none) => { status := 404, db := db', errorMsg := some "User not found" }
    | .ok (db', some u) => { status := 200, db := db', user := some u }

/-- DELETE /api/users/:id: rejects deleting your own account, otherwise soft
deletes (active = 0) and answers 200. -/

def deleteUserHandler (db : DB) (user : Claims) (idParam : Nat) : URes :=
  if idParam == user.id then
    { status := 400, db := db, errorMsg := some "Cannot delete your own account" }
  else
    { status := 200, db := deleteUser db idParam }

def countActiveAdmins (db : DB) : Nat :=
  (db.users.filter (fun w => w.active && w.role == "admin")).length

/-! ## Feature-request route (server.js + emailService.js) -/

/-- Outcome of the external sendFeatureRequestEmail call: emailService.js
resolves {success:true,messageId} on delivery and {success:false,error} on a
transport failure or missing configuration (it never rejects). -/

inductive EmailResult where
  | success (messageId : String)
  | failure (error : String)
deriving DecidableEq

structure FRBody where
  description : Option String := none
  userEmail : Option String := none
deriving DecidableEq

structure FRRes where
  status : Nat
  message : Option String := none
  messageId : Option String := none
  errorMsg : Option String := none
  details : Option String := none
deriving DecidableEq

/-- POST /api/feature-request: 400 on a missing/blank description; then the
mail call's outcome decides the response — success answers the message id,
failure is logged and answered 500 with the error details. -/

def featureRequestHandler (body : FRBody) (emailResult : EmailResult) : FRRes :=
  match body.description with
  | none => { status := 400, errorMsg := some "Feature description is required" }
  | some description =>
      if description = "" ∨ jsTrim description = "" then
        { status := 400, errorMsg := some "Feature description is required" }
      else
        match emailResult with
        | .success mid =>
            { status := 200, message := some "Feature request sent successfully"
              messageId := some mid }
        | .failure err =>
            { status := 500, errorMsg := some "Failed to send feature request"
              details := some err }

/-! ## Client reconciler (React App socket handlers)

The client keeps a local properties list; socket events arrive carrying the
server's transformed property payload and are re-shaped into the client's
Property interface before merging. -/

structure CProp where
  id : Nat
  address : String
  zoning : Option String
  value : Option Int
  notes : String
  taxValue : Option Int
  assessedValue : Option Int
  capRate : Option Int
  monthlyPayment : Option Int
  coordinates : Option (List JNum)
  thumbsUp : Int
  thumbsDown : Int
  createdBy : Option Nat
  createdByName : Option String
deriving DecidableEq

/-- The client-side re-shaping of an event payload (notes || '',
coordinates || position, thumbs || 0). -/

def toCProp (p : Property) : CProp :=
  { id := p.id
    address := p.address
    zoning := p.zoning
    value := p.value
    notes := jsOrStr (some p.notes) ""
    taxValue := p.taxValue
    assessedValue := p.assessedValue
    capRate := p.capRate
    monthlyPayment := p.monthlyPayment
    coordinates := p.coordinates.orElse (fun _ => p.position)
    thumbsUp := jsNumOr0 p.thumbsUp
    thumbsDown := jsNumOr0 p.thumbsDown
    createdBy := p.createdBy
    createdByName := p.createdByName }

/-- propertyCreated socket handler: append, unless an entry with the same id
already exists (then the previous list is kept unchanged). -/

def onPropertyCreated (cache : List CProp) (payload : Property) : List CProp :=
  let tp := toCProp payload
  if cache.any (fun q => q.id == tp.id) then cache else cache ++ [tp]

/-- propertyUpdated socket handler: map over the list replacing entries whose
id matches (an id with no entry inserts nothing). -/

def onPropertyUpdated (cache : List CProp) (payload : Property) : List CProp :=
  let tp := toCProp payload
  cache.map (fun q => if q.id = tp.id then tp else q)

/-- propertyDeleted socket handler: filter the id out. -/

def onPropertyDeleted (cache : List CProp) (id : Nat) : List CProp :=
  cache.filter (fun q => !(q.id == id))

/-- allPropertiesDeleted socket handler: clear the cache. -/

def onAllPropertiesDeleted (_cache : List CProp) : List CProp := []

/-! ## Interleaving model of the vote counter write

The vote handler's counter change decomposes into an application-level read
(getPropertyById, taking thumbsUp) followed by a storage write of the
incremented copy (updateProperty with thumbs_up = value).  Each concurrent
request performs these two steps; the single-threaded event loop may
interleave the steps of different requests between their awaits. -/

inductive VoteStage where
  | start
  | readDone (t : Int)
  | done
deriving DecidableEq

/-- One step of an in-flight vote(id, up) request. -/

def voteUpStep (id : Nat) : VoteStage × DB → VoteStage × DB
  | (.start, db) =>
      match getPropertyById db id with
      | some p => (.readDone p.thumbsUp, db)
      | none => (.done, db)
  | (.readDone t, db) =>
      (.done, (updateProperty db id { thumbsUp := some (jsNumOr0 t + 1) }).1)
  | (.done, db) => (.done, db)

/-- Run two concurrent vote(id, up) requests under a schedule: true steps the
first request, false the second. -/

def runVoteSchedule (id : Nat) : List Bool → VoteStage × VoteStage × DB → VoteStage × VoteStage × DB
  | [], s => s
  | b :: rest, (s1, s2, db) =>
      if b then
        let r := voteUpStep id (s1, db)
        runVoteSchedule id rest (r.1, s2, r.2)
      else
        let r := voteUpStep id (s2, db)
        runVoteSchedule id rest (s1, r.1, r.2)

/-- Sequential (uninterleaved) repetition of the vote-up route. -/

def iterVoteUp (db : DB) (id : Nat) : Nat → DB
  | 0 => db
  | n + 1 => iterVoteUp (votePropertyHandler db id { vote := some "up" }).db id n

/-! ## Concrete fixtures used by witnesses and counterexamples -/

def sampleRow : PropRow :=
  { id := 1, address := "123 Main St", zoning := some "Residential"
    value := some 200000, notes := some "", tax_value := none
    assessed_value := none, cap_rate := none, monthly_payment := none
    coordinates := none, thumbs_up := 0, thumbs_down := 0
    created_by := none, created_by_name := none }

def sampleDb : DB := { props := [sampleRow], nextPropId := 2, users := [] }

def emptyDb : DB := { props := [], nextPropId := 1, users := [] }

def adminRow : UserRow :=
  { id := 1, email := "admin@clintonville.com", name := "Admin User"
    username := none, first_name := none, last_name := none
    role := "admin", active := true }

def adminDb : DB := { props := [], nextPropId := 1, users := [adminRow] }

def adminClaims : Claims :=
  { id := 1, email := "admin@clintonville.com", name := "Admin User", role := "admin" }

def sampleDb5 : DB :=
  { props := [{ sampleRow with thumbs_up := 5 }], nextPropId := 2, users := [] }

def cachedEntry : CProp :=
  { id := 1, address := "123 Main St", zoning := some "Residential"
    value := some 200000, notes := "", taxValue := none, assessedValue := none
    capRate := none, monthlyPayment := none, coordinates := none
    thumbsUp := 0, thumbsDown := 0, createdBy := none, createdByName := none }

def newPayload : Property :=
  { id := 1, address := "123 Main St (renovated)", zoning := some "Commercial"
    value := some 250000, notes := "", taxValue := none, assessedValue := none
    capRate := none, monthlyPayment := none, position := none, coordinates := none
    thumbsUp := 2, thumbsDown := 0, createdBy := none, createdByName := none }

/-! ## Lemmas and claim theorems -/

theorem natCharsAux_eq_digits {fuel n : Nat} (h : n ≤ fuel) :
    natCharsAux fuel n = (Nat.digits 10 n).reverse.map digitChar := by
  induction fuel generalizing n with
  | zero =>
      have : n = 0 := by omega
      subst this
      simp [natCharsAux]
  | succ fuel ih =>
      by_cases hn : n = 0
      · subst hn
        simp [natCharsAux]
      · have hdiv : n / 10 ≤ fuel := by
          have := Nat.div_lt_self (Nat.pos_of_ne_zero hn) (by norm_num : 1 < 10)
          omega
        rw [natCharsAux, if_neg hn, ih hdiv,
          Nat.digits_def' (by norm_num : 1 < 10) (Nat.pos_of_ne_zero hn)]
        simp

theorem natChars_eq (n : Nat) :
    natChars n = (Nat.digits 10 n).reverse.map digitChar :=
  natCharsAux_eq_digits le_rfl

/-! Digit-string lemmas. -/

theorem charDigit_digitChar {d : Nat} (h : d < 10) : charDigit (digitChar d) = d := by
  interval_cases d <;> rfl

theorem isDigit_digitChar {d : Nat} (h : d < 10) : (digitChar d).isDigit = true := by
  interval_cases d <;> rfl

theorem natChars_all_digit {n : Nat} : ∀ c ∈ natChars n, c.isDigit = true := by
  intro c hc
  rw [natChars_eq] at hc
  simp only [List.mem_map, List.mem_reverse] at hc
  obtain ⟨d, hd, rfl⟩ := hc
  exact isDigit_digitChar (Nat.digits_lt_base (by norm_num) hd)

theorem ofDigits_replicate_zero (k : Nat) :
    Nat.ofDigits 10 (List.replicate k 0) = 0 := by
  induction k with
  | zero => rfl
  | succ k ih => simp [List.replicate_succ, Nat.ofDigits_cons, ih]

theorem digitsToNat_natChars (n : Nat) : digitsToNat (natChars n) = n := by
  have hmap : (natChars n).map charDigit = (Nat.digits 10 n).reverse := by
    simp only [natChars_eq, List.map_map]
    rw [List.map_congr_left, List.map_id]
    intro d hd
    simp only [Function.comp_apply, id_eq]
    exact charDigit_digitChar (Nat.digits_lt_base (by norm_num) (List.mem_reverse.mp hd))
  simp only [digitsToNat, hmap, List.reverse_reverse]
  exact Nat.ofDigits_digits 10 n

theorem digitsToNat_append (a b : List Char) :
    digitsToNat (a ++ b) = digitsToNat a * 10 ^ b.length + digitsToNat b := by
  simp only [digitsToNat, List.map_append, List.reverse_append]
  rw [Nat.ofDigits_append]
  simp [Nat.mul_comm]
  ring

theorem digitsToNat_replicate_zero (k : Nat) :
    digitsToNat (List.replicate k '0') = 0 := by
  have hz : charDigit '0' = 0 := rfl
  have : (List.replicate k '0').map charDigit = List.replicate k 0 := by
    simp [List.map_replicate, hz]
  simp [digitsToNat, this, ofDigits_replicate_zero]

theorem digitsToNat_zeroPad (k : Nat) (s : List Char) :
    digitsToNat (zeroPad k s) = digitsToNat s := by
  simp [zeroPad, digitsToNat_append, digitsToNat_replicate_zero]

theorem zeroPad_all_digit {k : Nat} {s : List Char}
    (h : ∀ c ∈ s, c.isDigit = true) : ∀ c ∈ zeroPad k s, c.isDigit = true := by
  intro c hc
  rcases List.mem_append.mp hc with h0 | hs
  · rcases List.eq_of_mem_replicate h0 with rfl; rfl
  · exact h c hs

theorem zeroPad_length (k : Nat) (s : List Char) : k ≤ (zeroPad k s).length := by
  simp [zeroPad]
  omega

theorem takeWhile_of_all {p : Char → Bool} {l : List Char}
    (h : ∀ c ∈ l, p c = true) : l.takeWhile p = l := by
  induction l with
  | nil => rfl
  | cons c t ih =>
      simp only [List.takeWhile_cons, h c (by simp)]
      simp [ih fun x hx => h x (by simp [hx])]

theorem dropWhile_of_all {p : Char → Bool} {l : List Char}
    (h : ∀ c ∈ l, p c = true) : l.dropWhile p = [] := by
  induction l with
  | nil => rfl
  | cons c t ih =>
      simp only [List.dropWhile_cons, h c (by simp)]
      simp [ih fun x hx => h x (by simp [hx])]

theorem takeWhile_append_stop {p : Char → Bool} {a : List Char} {c : Char}
    (ha : ∀ x ∈ a, p x = true) (hc : p c = false) (b : List Char) :
    (a ++ c :: b).takeWhile p = a := by
  induction a with
  | nil => simp [List.takeWhile_cons, hc]
  | cons x t ih =>
      simp only [List.cons_append, List.takeWhile_cons, ha x (by simp)]
      simp [ih fun y hy => ha y (by simp [hy])]

theorem dropWhile_append_stop {p : Char → Bool} {a : List Char} {c : Char}
    (ha : ∀ x ∈ a, p x = true) (hc : p c = false) (b : List Char) :
    (a ++ c :: b).dropWhile p = c :: b := by
  induction a with
  | nil => simp [List.dropWhile_cons, hc]
  | cons x t ih =>
      simp only [List.cons_append, List.dropWhile_cons, ha x (by simp)]
      simp [ih fun y hy => ha y (by simp [hy])]

theorem parseUnsigned_all_digits {a : List Char}
    (ha : ∀ c ∈ a, c.isDigit = true) (hane : a ≠ []) :
    parseUnsigned a = some (digitsToNat a, 0) := by
  simp only [parseUnsigned, takeWhile_of_all ha, dropWhile_of_all ha]
  cases a with
  | nil => exact absurd rfl hane
  | cons c t => simp

theorem parseUnsigned_token {a b : List Char}
    (ha : ∀ c ∈ a, c.isDigit = true) (hb : ∀ c ∈ b, c.isDigit = true)
    (hane : a ≠ []) (hbne : b ≠ []) :
    parseUnsigned (a ++ '.' :: b) = some (digitsToNat (a ++ b), b.length) := by
  have hdot : ('.' : Char).isDigit = false := rfl
  simp only [parseUnsigned, takeWhile_append_stop ha hdot,
    dropWhile_append_stop ha hdot]
  cases a with
  | nil => exact absurd rfl hane
  | cons c t =>
      simp only [List.isEmpty_cons, Bool.false_eq_true, if_false]
      rw [if_pos ⟨hbne, List.all_eq_true.mpr hb⟩]

theorem printUnsigned_eq_of_ne_zero (m : Nat) {e : Nat} (he : e ≠ 0) :
    printUnsigned m e =
      (zeroPad (e + 1) (natChars m)).take ((zeroPad (e + 1) (natChars m)).length - e)
        ++ '.' :: (zeroPad (e + 1) (natChars m)).drop
            ((zeroPad (e + 1) (natChars m)).length - e) := by
  simp only [printUnsigned, if_neg he]

theorem parseUnsigned_printUnsigned (m e : Nat) :
    parseUnsigned (printUnsigned m e) = some (m, e) := by
  have hall : ∀ c ∈ zeroPad (e + 1) (natChars m), c.isDigit = true :=
    zeroPad_all_digit natChars_all_digit
  have hlen : e + 1 ≤ (zeroPad (e + 1) (natChars m)).length := zeroPad_length _ _
  have hval : digitsToNat (zeroPad (e + 1) (natChars m)) = m := by
    rw [digitsToNat_zeroPad, digitsToNat_natChars]
  by_cases he : e = 0
  · subst he
    have hprint : printUnsigned m 0 = zeroPad 1 (natChars m) := by
      simp [printUnsigned]
    have hne : zeroPad 1 (natChars m) ≠ [] := by
      intro h
      have := zeroPad_length 1 (natChars m)
      rw [h] at this; simp at this
    rw [hprint, parseUnsigned_all_digits hall hne, hval]
  · have halen : ((zeroPad (e + 1) (natChars m)).take
        ((zeroPad (e + 1) (natChars m)).length - e)).length =
        (zeroPad (e + 1) (natChars m)).length - e := by
      rw [List.length_take]; omega
    have hblen : ((zeroPad (e + 1) (natChars m)).drop
        ((zeroPad (e + 1) (natChars m)).length - e)).length = e := by
      rw [List.length_drop]; omega
    have hane : (zeroPad (e + 1) (natChars m)).take
        ((zeroPad (e + 1) (natChars m)).length - e) ≠ [] := by
      intro h
      rw [h] at halen; simp at halen; omega
    have hbne : (zeroPad (e + 1) (natChars m)).drop
        ((zeroPad (e + 1) (natChars m)).length - e) ≠ [] := by
      intro h
      rw [h] at hblen
      simp at hblen
      omega
    rw [printUnsigned_eq_of_ne_zero m he,
      parseUnsigned_token
        (fun x hx => hall x (List.take_subset _ _ hx))
        (fun x hx => hall x (List.drop_subset _ _ hx)) hane hbne,
      List.take_append_drop, hval, hblen]

theorem printUnsigned_ne_nil (m e : Nat) : printUnsigned m e ≠ [] := by
  have hlen : e + 1 ≤ (zeroPad (e + 1) (natChars m)).length := zeroPad_length _ _
  by_cases he : e = 0
  · subst he
    have hprint : printUnsigned m 0 = zeroPad 1 (natChars m) := by
      simp [printUnsigned]
    rw [hprint]
    intro h
    rw [h] at hlen; simp at hlen
  · rw [printUnsigned_eq_of_ne_zero m he]
    intro h
    rcases List.append_eq_nil.mp h with ⟨-, h2⟩
    exact List.cons_ne_nil _ _ h2

theorem printUnsigned_head_digit (m e : Nat) {c : Char} {t : List Char}
    (h : printUnsigned m e = c :: t) : c.isDigit = true := by
  have hall : ∀ x ∈ zeroPad (e + 1) (natChars m), x.isDigit = true :=
    zeroPad_all_digit natChars_all_digit
  have hlen : e + 1 ≤ (zeroPad (e + 1) (natChars m)).length := zeroPad_length _ _
  by_cases he : e = 0
  · subst he
    have hprint : printUnsigned m 0 = zeroPad 1 (natChars m) := by
      simp [printUnsigned]
    rw [hprint] at h
    exact hall c (h ▸ List.mem_cons_self c t)
  · rw [printUnsigned_eq_of_ne_zero m he] at h
    have halen : ((zeroPad (e + 1) (natChars m)).take
        ((zeroPad (e + 1) (natChars m)).length - e)).length =
        (zeroPad (e + 1) (natChars m)).length - e := by
      rw [List.length_take]; omega
    rcases ht : (zeroPad (e + 1) (natChars m)).take
        ((zeroPad (e + 1) (natChars m)).length - e) with _ | ⟨x, xs⟩
    · rw [ht] at halen; simp at halen; omega
    · rw [ht, List.cons_append] at h
      have hcx : x = c := (List.cons_eq_cons.mp h).1
      subst hcx
      exact hall x (List.take_subset _ _ (ht ▸ List.mem_cons_self x xs))

theorem parseNum_neg_cons (s : List Char) :
    parseNum ('-' :: s) = (parseUnsigned s).map (fun p => ⟨-(p.1 : Int), p.2⟩) := rfl

theorem parseNum_printNum (x : JNum) : parseNum (printNum x) = some x := by
  obtain ⟨m, e⟩ := x
  by_cases hm : m < 0
  · have hneg : -((m.natAbs : Int)) = m := by omega
    rw [printNum, if_pos hm, parseNum_neg_cons, parseUnsigned_printUnsigned]
    show some (⟨-((m.natAbs : Int)), e⟩ : JNum) = some ⟨m, e⟩
    rw [hneg]
  · rcases hp : printUnsigned m.natAbs e with _ | ⟨c, t⟩
    · exact absurd hp (printUnsigned_ne_nil _ _)
    · have hcd : c.isDigit = true := printUnsigned_head_digit _ _ hp
      have hcne : ¬(c = '-') := by
        intro hcc; rw [hcc] at hcd; exact absurd hcd (by decide)
      have hpos : ((m.natAbs : Int)) = m := by omega
      have hstep : parseNum (c :: t) =
          (parseUnsigned (c :: t)).map (fun p => ⟨(p.1 : Int), p.2⟩) := by
        simp only [parseNum, if_neg hcne]
      rw [printNum, if_neg hm, hp, hstep, ← hp, parseUnsigned_printUnsigned]
      simp [hpos]

theorem splitComma_ne_nil (s : List Char) : splitComma s ≠ [] := by
  induction s with
  | nil => simp [splitComma]
  | cons c rest ih =>
      rw [splitComma]
      rcases h : splitComma rest with _ | ⟨g, gs⟩
      · simp
      · by_cases hc : c = ','
        · simp [hc]
        · simp [hc]

theorem splitComma_append_free {x : List Char} (hx : ∀ c ∈ x, c ≠ ',') :
    ∀ rest g gs, splitComma rest = g :: gs →
      splitComma (x ++ rest) = (x ++ g) :: gs := by
  induction x with
  | nil => intro rest g gs h; simpa using h
  | cons c t ih =>
      intro rest g gs h
      have hc : ¬(c = ',') := hx c (by simp)
      rw [List.cons_append, splitComma,
        ih (fun y hy => hx y (by simp [hy])) rest g gs h]
      simp [hc]

theorem splitComma_joinComma {xss : List (List Char)}
    (hne : xss ≠ []) (hfree : ∀ xs ∈ xss, ∀ c ∈ xs, c ≠ ',') :
    splitComma (joinComma xss) = xss := by
  induction xss with
  | nil => exact absurd rfl hne
  | cons x rest ih =>
      cases rest with
      | nil =>
          have h0 : splitComma ([] : List Char) = [] :: [] := rfl
          have := splitComma_append_free (hfree x (by simp)) [] [] [] h0
          simpa [joinComma] using this
      | cons y ys =>
          have htail : splitComma (joinComma (y :: ys)) = y :: ys :=
            ih (by simp) (fun xs hxs c hc => hfree xs (by simp [hxs]) c hc)
          have hcons : splitComma (',' :: joinComma (y :: ys)) = [] :: y :: ys := by
            rw [splitComma, htail]
            simp
          have := splitComma_append_free (hfree x (by simp))
            (',' :: joinComma (y :: ys)) [] (y :: ys) hcons
          simpa [joinComma] using this

theorem printNum_comma_free (x : JNum) : ∀ c ∈ printNum x, c ≠ ',' := by
  have hUns : ∀ m e, ∀ c ∈ printUnsigned m e, c ≠ ',' := by
    intro m e c hc
    have hall : ∀ y ∈ zeroPad (e + 1) (natChars m), y.isDigit = true :=
      zeroPad_all_digit natChars_all_digit
    by_cases he : e = 0
    · subst he
      have hprint : printUnsigned m 0 = zeroPad 1 (natChars m) := by
        simp [printUnsigned]
      rw [hprint] at hc
      intro hcc
      have := hall c hc
      rw [hcc] at this
      exact absurd this (by decide)
    · rw [printUnsigned_eq_of_ne_zero m he] at hc
      rcases List.mem_append.mp hc with h1 | h2
      · intro hcc
        have := hall c (List.take_subset _ _ h1)
        rw [hcc] at this
        exact absurd this (by decide)
      · rcases List.mem_cons.mp h2 with rfl | h3
        · decide
        · intro hcc
          have := hall c (List.drop_subset _ _ h3)
          rw [hcc] at this
          exact absurd this (by decide)
  intro c hc
  rw [printNum] at hc
  by_cases hm : x.m < 0
  · rw [if_pos hm] at hc
    rcases List.mem_cons.mp hc with rfl | h
    · decide
    · exact hUns _ _ c h
  · rw [if_neg hm] at hc
    exact hUns _ _ c hc

theorem mapM_parseNum_printNum (cs : List JNum) :
    (cs.map printNum).mapM parseNum = some cs := by
  induction cs with
  | nil => rfl
  | cons c t ih =>
      rw [List.map_cons, List.mapM_cons, parseNum_printNum, ih]
      rfl

/-- The persistence round-trip on nonempty numeric arrays is lossless:
parsing the stringified array returns exactly the original array. -/

theorem parseCoords_stringifyCoords {cs : List JNum} (hne : cs ≠ []) :
    parseCoords (stringifyCoords cs) = some cs := by
  have hdata : (stringifyCoords cs).data = encodeCoordsL cs := rfl
  rw [parseCoords, hdata, encodeCoordsL, parseCoordsL]
  have hlast : (joinComma (cs.map printNum) ++ [']']).getLast? = some ']' := by
    simp [List.getLast?_append]
  have hdrop : (joinComma (cs.map printNum) ++ [']']).dropLast =
      joinComma (cs.map printNum) := by
    simp
  rw [if_pos hlast, hdrop,
    splitComma_joinComma (by simpa using hne)
      (by
        intro xs hxs c hc
        rcases List.mem_map.mp hxs with ⟨n, -, rfl⟩
        exact printNum_comma_free n c hc),
    mapM_parseNum_printNum]

theorem jsNumOr0_eq (v : Int) : jsNumOr0 v = v := by
  rw [jsNumOr0]
  by_cases h : v = 0
  · rw [if_pos h, h]
  · rw [if_neg h]

/-! ## Generic list lemmas about keyed lookup and update -/

theorem find?_map_key {α : Type} (key : α → Nat) (g : α → α)
    (hg : ∀ w, key (g w) = key w) (l : List α) (pid : Nat) :
    (l.map g).find? (fun w => key w == pid) = (l.find? (fun w => key w == pid)).map g := by
  induction l with
  | nil => rfl
  | cons w t ih =>
      by_cases h : key w = pid
      · rw [List.map_cons,
          List.find?_cons_of_pos (p := fun w => key w == pid) _ (by simp [hg w, h]),
          List.find?_cons_of_pos (p := fun w => key w == pid) _ (by simp [h])]
        rfl
      · rw [List.map_cons,
          List.find?_cons_of_neg (p := fun w => key w == pid) _ (by simp [hg w, h]),
          List.find?_cons_of_neg (p := fun w => key w == pid) _ (by simp [h])]
        exact ih

theorem find?_append_of_none {α : Type} {l1 : List α} {p : α → Bool}
    (h : l1.find? p = none) (l2 : List α) :
    (l1 ++ l2).find? p = l2.find? p := by
  induction l1 with
  | nil => rfl
  | cons x t ih =>
      by_cases hx : p x
      · rw [List.find?_cons_of_pos t hx] at h; cases h
      · rw [List.find?_cons_of_neg t (by simpa using hx)] at h
        rw [List.cons_append, List.find?_cons_of_neg _ (by simpa using hx)]
        exact ih h

theorem applyUpdates_id (r : PropRow) (u : PropUpdates) :
    (applyUpdates r u).id = r.id := rfl

theorem getPropertyById_eq_some {db : DB} {id : Nat} {p : Property}
    (h : getPropertyById db id = some p) :
    ∃ r, db.props.find? (fun w => w.id == id) = some r ∧
      p = rowToProperty r ∧ r.id = id := by
  rw [getPropertyById] at h
  cases hf : db.props.find? (fun w => w.id == id) with
  | none => rw [hf] at h; cases h
  | some r =>
      rw [hf] at h
      refine ⟨r, rfl, ?_, ?_⟩
      · cases h; rfl
      · have := List.find?_some hf
        simpa using this

theorem jsOrStr_idem (a : Option String) {b : String} (hb : b ≠ "") :
    jsOrStr (some (jsOrStr a b)) b = jsOrStr a b := by
  rw [jsOrStr]
  by_cases h : jsOrStr a b = ""
  · rw [if_pos h]
    cases a with
    | none => rw [jsOrStr] at h; exact absurd h hb
    | some s =>
        rw [jsOrStr] at h
        by_cases hs : s = ""
        · rw [if_pos hs] at h; exact absurd h hb
        · rw [if_neg hs] at h
          rw [jsOrStr, if_pos h]
  · rw [if_neg h]

theorem jsOrInt_idem (a : Option Int) {b : Int} (hb : b ≠ 0) :
    jsOrInt (some (jsOrInt a b)) b = jsOrInt a b := by
  rw [jsOrInt]
  by_cases h : jsOrInt a b = 0
  · rw [if_pos h]
    cases a with
    | none => rw [jsOrInt] at h; exact absurd h hb
    | some v =>
        rw [jsOrInt] at h
        by_cases hv : v = 0
        · rw [if_pos hv] at h; exact absurd h hb
        · rw [if_neg hv] at h
          rw [jsOrInt, if_pos h]
  · rw [if_neg h]

/-! ## Claims -/

/-- C10: for every update or vote call whose property id is absent from the
store, the handler returns 404 Not Found, the stored collection is
unchanged, and no broadcast event is emitted. -/

theorem C10_absent_id_404_no_write_no_broadcast
    (db : DB) (id : Nat) (bodyPut : PropUpdates) (bodyVote : VoteBody)
    (h : getPropertyById db id = none) :
    putPropertyHandler db id bodyPut =
      { status := 404, db := db, events := [], errorMsg := some "Property not found" } ∧
    votePropertyHandler db id bodyVote =
      { status := 404, db := db, events := [], errorMsg := some "Property not found" } := by
  constructor
  · rw [putPropertyHandler, h]
  · rw [votePropertyHandler, h]

/-- Witness for C10: the 404 path at a concrete absent id. -/

theorem C10_witness :
    putPropertyHandler emptyDb 7 {} =
      { status := 404, db := emptyDb, events := [], errorMsg := some "Property not found" } :=
  (C10_absent_id_404_no_write_no_broadcast emptyDb 7 {} {} (by decide)).1

/-- C3 counterexample: a presented token with an invalid signature is
rejected with HTTP 403, not the 401 the claim states. -/

theorem C3_invalid_token_403_counterexample :
    authenticateToken (some { claims := adminClaims, sigValid := false, expired := false }) =
      .reject 403 "Invalid or expired token" ∧
    authenticateToken (some { claims := adminClaims, sigValid := true, expired := true }) =
      .reject 403 "Invalid or expired token" ∧
    (403 : Nat) ≠ 401 := by
  refine ⟨by decide, by decide, by decide⟩

/-- C3 (amended): a missing token is rejected 401; a presented token whose
signature is invalid or which has expired is rejected 403 with
'Invalid or expired token'. -/

theorem C3_invalid_or_expired_token_rejected
    (t : Token) (h : t.sigValid = false ∨ t.expired = true) :
    authenticateToken (some t) = .reject 403 "Invalid or expired token" ∧
    authenticateToken none = .reject 401 "Access token required" := by
  constructor
  · rw [authenticateToken]
    rcases h with h | h <;> simp [h]
  · rfl

/-- Witness for C3 at a concrete invalid-signature token. -/

theorem C3_witness :
    authenticateToken (some { claims := adminClaims, sigValid := false, expired := true }) =
      .reject 403 "Invalid or expired token" :=
  (C3_invalid_or_expired_token_rejected
    { claims := adminClaims, sigValid := false, expired := true } (Or.inl rfl)).1

/-- C4 counterexample: with a non-empty description and a failed outbound
mail delivery, the request is answered 500 — it does not succeed. -/

theorem C4_email_failure_counterexample :
    featureRequestHandler { description := some "Add dark mode" }
        (.failure "SMTP connection refused") =
      { status := 500, errorMsg := some "Failed to send feature request"
        details := some "SMTP connection refused" } ∧
    (featureRequestHandler { description := some "Add dark mode" }
        (.failure "SMTP connection refused")).status ≠ 200 := by
  refine ⟨by decide, by decide⟩

/-- C4 (amended): a mail delivery failure on a non-blank description is
logged and the originating request fails with 500, echoing the error in the
details field. -/

theorem C4_email_failure_returns_500
    (d : String) (em : Option String) (err : String) (h : jsTrim d ≠ "") :
    featureRequestHandler { description := some d, userEmail := em } (.failure err) =
      { status := 500, errorMsg := some "Failed to send feature request"
        details := some err } := by
  have hd : ¬(d = "" ∨ jsTrim d = "") := by
    rintro (rfl | hx)
    · exact h rfl
    · exact h hx
  rw [featureRequestHandler]
  simp only [if_neg hd]

/-- Witness for C4 at a concrete description and error. -/

theorem C4_witness :
    featureRequestHandler { description := some "Add dark mode", userEmail := none }
        (.failure "ECONNREFUSED") =
      { status := 500, errorMsg := some "Failed to send feature request"
        details := some "ECONNREFUSED" } :=
  C4_email_failure_returns_500 "Add dark mode" none "ECONNREFUSED" (by decide)

/-- C5 counterexample: an authenticated create whose input lacks an address
is answered 500 (the NOT NULL constraint rejection caught by the handler),
not a 400 ValidationError. -/

theorem C5_missing_address_counterexample :
    postPropertyHandler emptyDb adminClaims {} =
      { status := 500, db := emptyDb, events := []
        errorMsg := some "Failed to create property" } ∧
    (postPropertyHandler emptyDb adminClaims {}).status ≠ 400 := by
  refine ⟨by decide, by decide⟩

/-- C5 (amended): a create without an address fails with a 500 storage error
rather than a 400 ValidationError; when the address is present the property
is created (201) with zoning and value defaulted and the creator's id and
display name (name, else email) stamped on. -/

theorem C5_create_defaults_and_creator_stamp
    (db : DB) (user : Claims) (body : CreateBody) (a : String)
    (ha : body.address = some a) (hid : user.id ≠ 0)
    (hname : user.name ≠ "" ∨ user.email ≠ "") :
    (postPropertyHandler db user body).status = 201 ∧
    ∃ q, (postPropertyHandler db user body).property = some q ∧
      q.address = a ∧
      q.zoning = some (jsOrStr body.zoning "Residential") ∧
      q.value = some (jsOrInt body.value 200000) ∧
      q.createdBy = some user.id ∧
      q.createdByName = some (jsOrStr (some user.name) user.email) := by
  have huser : jsOrStr (some user.name) user.email ≠ "" := by
    rw [jsOrStr]
    by_cases h : user.name = ""
    · rw [if_pos h]
      rcases hname with hn | he
      · exact absurd h hn
      · exact he
    · rw [if_neg h]; exact h
  simp only [postPropertyHandler, createProperty, ha]
  refine ⟨trivial, _, rfl, rfl, ?_, ?_, ?_, ?_⟩
  · show some (jsOrStr (some (jsOrStr body.zoning "Residential")) "Residential") =
      some (jsOrStr body.zoning "Residential")
    rw [jsOrStr_idem _ (by decide)]
  · show some (jsOrInt (some (jsOrInt body.value 200000)) 200000) =
      some (jsOrInt body.value 200000)
    rw [jsOrInt_idem _ (by decide)]
  · show jsOrNullNat (some user.id) = some user.id
    rw [jsOrNullNat, if_neg hid]
  · show jsOrNullStr (some (jsOrStr (some user.name) user.email)) =
      some (jsOrStr (some user.name) user.email)
    rw [jsOrNullStr, if_neg huser]

/-- Witness for C5 at a concrete body carrying an address. -/

theorem C5_witness :
    (postPropertyHandler emptyDb adminClaims { address := some "123 Main St" }).status = 201 :=
  (C5_create_defaults_and_creator_stamp emptyDb adminClaims
    { address := some "123 Main St" } "123 Main St" rfl (by decide) (Or.inl (by decide))).1

/-- C6 counterexample: an admin's PUT /api/users/:id on their own id with
active=false is applied — the account is deactivated (the request is not
rejected: the stored state changes), leaving zero active admins. -/

theorem C6_self_deactivation_counterexample :
    (putUserHandler adminDb adminClaims 1 { active := some false }).db.users =
      [{ adminRow with active := false }] ∧
    (putUserHandler adminDb adminClaims 1 { active := some false }).db ≠ adminDb ∧
    countActiveAdmins (putUserHandler adminDb adminClaims 1 { active := some false }).db = 0 ∧
    countActiveAdmins adminDb = 1 := by
  refine ⟨by decide, by decide, by decide, by decide⟩

/-- C6 (amended): a caller cannot change their own role (a truthy role field
on their own id is rejected 400 with no state change) and cannot delete
their own account (rejected 400 with no state change); self-deactivation via
an active=false update is, however, applied, so the at-least-one-active-admin
invariant is not maintained. -/

theorem C6_own_role_change_and_self_delete_rejected
    (db : DB) (user : Claims) (id : Nat) (u : UserUpdates)
    (hid : id = user.id) (hrole : jsTruthyStr u.role = true) :
    putUserHandler db user id u =
      { status := 400, db := db, errorMsg := some "Cannot change your own role" } ∧
    deleteUserHandler db user id =
      { status := 400, db := db, errorMsg := some "Cannot delete your own account" } := by
  constructor
  · rw [putUserHandler]
    simp [hrole, hid]
  · rw [deleteUserHandler]
    simp [hid]

/-- Witness for C6 at a concrete self-targeted role change. -/

theorem C6_witness :
    putUserHandler adminDb adminClaims 1 { role := some "viewer" } =
      { status := 400, db := adminDb, errorMsg := some "Cannot change your own role" } :=
  (C6_own_role_change_and_self_delete_rejected adminDb adminClaims 1
    { role := some "viewer" } rfl (by decide)).1

theorem updateProperty_found {db : DB} {id : Nat} {r : PropRow}
    (hfind : db.props.find? (fun w => w.id == id) = some r) (u : PropUpdates) :
    updateProperty db id u =
      ({ db with props := db.props.map (fun w => if w.id = id then applyUpdates w u else w) },
        some (rowToProperty (applyUpdates r u))) := by
  have hrid : r.id = id := by simpa using List.find?_some hfind
  rw [updateProperty]
  have hmap : (db.props.map (fun w => if w.id = id then applyUpdates w u else w)).find?
      (fun w => w.id == id) = some (applyUpdates r u) := by
    rw [find?_map_key (fun w : PropRow => w.id)
      (fun w => if w.id = id then applyUpdates w u else w)
      (fun w => by by_cases hw : w.id = id <;> simp [hw, applyUpdates_id])
      db.props id, hfind]
    simp [hrid]
  simp only [getPropertyById, hmap, Option.map]

theorem vote_up_eq {db : DB} {id : Nat} {p : Property} {r : PropRow}
    (h : getPropertyById db id = some p)
    (hfind : db.props.find? (fun w => w.id == id) = some r) (d : Option String) :
    votePropertyHandler db id { vote := some "up", direction := d } =
      { status := 200
        db := { db with props := db.props.map (fun w => if w.id = id then
            applyUpdates w { thumbsUp := some (jsNumOr0 p.thumbsUp + 1) } else w) }
        events := [.propertyUpdated (transformProperty (rowToProperty
          (applyUpdates r { thumbsUp := some (jsNumOr0 p.thumbsUp + 1) })))]
        property := some (transformProperty (rowToProperty
          (applyUpdates r { thumbsUp := some (jsNumOr0 p.thumbsUp + 1) }))) } := by
  simp [votePropertyHandler, h, updateProperty_found hfind]

theorem vote_down_eq {db : DB} {id : Nat} {p : Property} {r : PropRow}
    (h : getPropertyById db id = some p)
    (hfind : db.props.find? (fun w => w.id == id) = some r) (d : Option String) :
    votePropertyHandler db id { vote := some "down", direction := d } =
      { status := 200
        db := { db with props := db.props.map (fun w => if w.id = id then
            applyUpdates w { thumbsDown := some (jsNumOr0 p.thumbsDown + 1) } else w) }
        events := [.propertyUpdated (transformProperty (rowToProperty
          (applyUpdates r { thumbsDown := some (jsNumOr0 p.thumbsDown + 1) })))]
        property := some (transformProperty (rowToProperty
          (applyUpdates r { thumbsDown := some (jsNumOr0 p.thumbsDown + 1) }))) } := by
  simp [votePropertyHandler, h, updateProperty_found hfind]

/-- C8 counterexample: a vote request whose body carries the spec's
direction key (and no vote key) on an existing property is answered 400 and
leaves the counters unchanged — the handler reads the `vote` body key. -/

theorem C8_direction_key_counterexample :
    votePropertyHandler sampleDb 1 { direction := some "up" } =
      { status := 400, db := sampleDb, events := []
        errorMsg := some "Invalid vote. Must be \x22up\x22 or \x22down\x22" } ∧
    (votePropertyHandler sampleDb 1 { direction := some "up" }).status ≠ 200 := by
  refine ⟨by decide, by decide⟩

/-- C8 (amended): the vote body key is `vote`: on an existing property id,
body {vote:"up"} succeeds with 200 and returns the property with thumbsUp
exactly one greater (thumbsDown unchanged), and {vote:"down"} symmetric. -/

theorem C8_vote_body_key
    (db : DB) (id : Nat) (p : Property) (d : Option String)
    (h : getPropertyById db id = some p) :
    ((votePropertyHandler db id { vote := some "up", direction := d }).status = 200 ∧
      ∃ q, (votePropertyHandler db id { vote := some "up", direction := d }).property = some q ∧
        q.thumbsUp = p.thumbsUp + 1 ∧ q.thumbsDown = p.thumbsDown) ∧
    ((votePropertyHandler db id { vote := some "down", direction := d }).status = 200 ∧
      ∃ q, (votePropertyHandler db id { vote := some "down", direction := d }).property = some q ∧
        q.thumbsDown = p.thumbsDown + 1 ∧ q.thumbsUp = p.thumbsUp) := by
  obtain ⟨r, hfind, hp, hrid⟩ := getPropertyById_eq_some h
  rw [vote_up_eq h hfind d, vote_down_eq h hfind d]
  subst hp
  refine ⟨⟨rfl, _, rfl, ?_, ?_⟩, ⟨rfl, _, rfl, ?_, ?_⟩⟩ <;>
    simp [transformProperty, rowToProperty, applyUpdates, jsNumOr0_eq]

/-- Witness for C8 at the concrete sample store. -/

theorem C8_witness :
    (votePropertyHandler sampleDb 1 { vote := some "up" }).status = 200 :=
  (C8_vote_body_key sampleDb 1 (rowToProperty sampleRow) none (by decide)).1.1

/-- C9 counterexample: a propertyCreated event whose id already exists in
the cache is dropped — the existing (stale) entry is kept, not replaced;
and a propertyUpdated event whose id is absent inserts nothing. -/

theorem C9_created_event_counterexample :
    onPropertyCreated [cachedEntry] newPayload = [cachedEntry] ∧
    toCProp newPayload ∉ onPropertyCreated [cachedEntry] newPayload ∧
    (toCProp newPayload).id = cachedEntry.id ∧
    toCProp newPayload ≠ cachedEntry ∧
    onPropertyUpdated [] newPayload = [] := by
  refine ⟨by decide, by decide, by decide, by decide, by decide⟩

/-- C9 (amended): a created event appends the (re-shaped) entity only when
no entry with its id exists and otherwise leaves the cache unchanged; an
updated event replaces exactly the entries whose id matches (inserting
nothing when the id is absent) and leaves every other position unchanged. -/

theorem C9_cache_merge (cache : List CProp) (payload : Property) :
    ((∀ q ∈ cache, q.id ≠ (toCProp payload).id) →
      onPropertyCreated cache payload = cache ++ [toCProp payload]) ∧
    ((∃ q ∈ cache, q.id = (toCProp payload).id) →
      onPropertyCreated cache payload = cache) ∧
    (onPropertyUpdated cache payload).length = cache.length ∧
    (∀ i (h1 : i < cache.length) (h2 : i < (onPropertyUpdated cache payload).length),
      (onPropertyUpdated cache payload).get ⟨i, h2⟩ =
        if (cache.get ⟨i, h1⟩).id = (toCProp payload).id then toCProp payload
        else cache.get ⟨i, h1⟩) := by
  refine ⟨?_, ?_, ?_, ?_⟩
  · intro hnone
    rw [onPropertyCreated]
    have : cache.any (fun q => q.id == (toCProp payload).id) = false := by
      simp only [List.any_eq_false]
      intro q hq
      simpa using hnone q hq
    simp [this]
  · rintro ⟨q, hq, hid⟩
    rw [onPropertyCreated]
    have : cache.any (fun w => w.id == (toCProp payload).id) = true := by
      simp only [List.any_eq_true]
      exact ⟨q, hq, by simpa using hid⟩
    simp [this]
  · simp [onPropertyUpdated]
  · intro i h1 h2
    simp [onPropertyUpdated, List.get_eq_getElem]

/-- Witness for C9: a created event on an empty cache appends its entity. -/

theorem C9_witness :
    onPropertyCreated [] newPayload = [toCProp newPayload] ∧
    onPropertyCreated [cachedEntry] newPayload = [cachedEntry] :=
  ⟨(C9_cache_merge [] newPayload).1 (by simp),
    (C9_cache_merge [cachedEntry] newPayload).2.1 ⟨cachedEntry, by decide, by decide⟩⟩

theorem vote_invalid_eq {db : DB} {id : Nat} {p : Property}
    (h : getPropertyById db id = some p) {body : VoteBody}
    (h1 : body.vote ≠ some "up") (h2 : body.vote ≠ some "down") :
    votePropertyHandler db id body =
      { status := 400, db := db, events := []
        errorMsg := some "Invalid vote. Must be \x22up\x22 or \x22down\x22" } := by
  simp [votePropertyHandler, h, h1, h2]

/-- C2 counterexample: PUT /api/properties/:id with body thumbsUp = -1 on a
property holding 5 thumbs-up succeeds (200) and stores -1: an operation
other than the admin delete-all both decreased the counter and made it
negative. -/

theorem C2_put_decreases_counter_counterexample :
    (putPropertyHandler sampleDb5 1 { thumbsUp := some (-1) }).status = 200 ∧
    (putPropertyHandler sampleDb5 1 { thumbsUp := some (-1) }).db.props.find?
        (fun w => w.id == 1) = some { sampleRow with thumbs_up := -1 } ∧
    sampleDb5.props.find? (fun w => w.id == 1) =
      some { sampleRow with thumbs_up := 5 } ∧
    ((-1 : Int) < 0 ∧ (-1 : Int) < 5) := by
  refine ⟨by decide, by decide, by decide, by decide, by decide⟩

/-- C2 (amended): the vote operation never decreases either counter of any
stored property, and a property created through the POST handler starts with
both counters at 0; the partial-update operation, however, writes any
client-supplied counter value verbatim (so it can decrease counters or make
them negative), delete-all aside. -/

theorem C2_counters_monotone_under_vote_and_create
    (db : DB) (id : Nat) (body : VoteBody) (pid : Nat) :
    (∀ r', (votePropertyHandler db id body).db.props.find? (fun w => w.id == pid) = some r' →
      ∃ r, db.props.find? (fun w => w.id == pid) = some r ∧
        r.thumbs_up ≤ r'.thumbs_up ∧ r.thumbs_down ≤ r'.thumbs_down) ∧
    (∀ user cbody q, (postPropertyHandler db user cbody).property = some q →
      q.thumbsUp = 0 ∧ q.thumbsDown = 0) := by
  constructor
  · intro r' hr'
    cases hre : getPropertyById db id with
    | none =>
        rw [votePropertyHandler, hre] at hr'
        exact ⟨r', hr', le_refl _, le_refl _⟩
    | some p =>
        obtain ⟨r0, hfind, hp, hr0id⟩ := getPropertyById_eq_some hre
        obtain ⟨bv, bd⟩ := body
        by_cases hup : bv = some "up"
        · subst hup
          rw [vote_up_eq hre hfind bd] at hr'
          rw [find?_map_key (fun w : PropRow => w.id)
            (fun w => if w.id = id then
              applyUpdates w { thumbsUp := some (jsNumOr0 p.thumbsUp + 1) } else w)
            (fun w => by by_cases hw : w.id = id <;> simp [hw, applyUpdates_id])
            db.props pid] at hr'
          cases hfp : db.props.find? (fun w => w.id == pid) with
          | none => rw [hfp] at hr'; cases hr'
          | some r =>
              rw [hfp] at hr'
              refine ⟨r, rfl, ?_⟩
              by_cases hrid : r.id = id
              · have hpid : pid = id := by
                  have : r.id = pid := by simpa using List.find?_some hfp
                  omega
                subst hpid
                have hrr0 : r = r0 := by
                  rw [hfp] at hfind; cases hfind; rfl
                subst hrr0
                simp only [Option.map_some', Option.some.injEq] at hr'
                subst hr'
                simp [applyUpdates, if_pos hrid, hp, rowToProperty, jsNumOr0_eq]
              · simp only [Option.map_some', Option.some.injEq] at hr'
                subst hr'
                simp [if_neg hrid]
        · by_cases hdown : bv = some "down"
          · subst hdown
            rw [vote_down_eq hre hfind bd] at hr'
            rw [find?_map_key (fun w : PropRow => w.id)
              (fun w => if w.id = id then
                applyUpdates w { thumbsDown := some (jsNumOr0 p.thumbsDown + 1) } else w)
              (fun w => by by_cases hw : w.id = id <;> simp [hw, applyUpdates_id])
              db.props pid] at hr'
            cases hfp : db.props.find? (fun w => w.id == pid) with
            | none => rw [hfp] at hr'; cases hr'
            | some r =>
                rw [hfp] at hr'
                refine ⟨r, rfl, ?_⟩
                by_cases hrid : r.id = id
                · have hpid : pid = id := by
                    have : r.id = pid := by simpa using List.find?_some hfp
                    omega
                  subst hpid
                  have hrr0 : r = r0 := by
                    rw [hfp] at hfind; cases hfind; rfl
                  subst hrr0
                  simp only [Option.map_some', Option.some.injEq] at hr'
                  subst hr'
                  simp [applyUpdates, if_pos hrid, hp, rowToProperty, jsNumOr0_eq]
                · simp only [Option.map_some', Option.some.injEq] at hr'
                  subst hr'
                  simp [if_neg hrid]
          · rw [vote_invalid_eq hre (by simpa using hup) (by simpa using hdown)] at hr'
            exact ⟨r', hr', le_refl _, le_refl _⟩
  · intro user cbody q hq
    rw [postPropertyHandler] at hq
    cases hca : cbody.address with
    | none =>
        rw [createProperty] at hq
        simp only [hca] at hq
        cases hq
    | some addr =>
        rw [createProperty] at hq
        simp only [hca] at hq
        simp only [Option.some.injEq] at hq
        subst hq
        simp [transformProperty, rowToProperty, jsOrInt, jsNumOr0]

/-- Witness for C2 at a concrete vote on the sample store. -/

theorem C2_witness :
    ∃ r, sampleDb.props.find? (fun w => w.id == 1) = some r ∧
      r.thumbs_up ≤ ({ sampleRow with thumbs_up := 1 } : PropRow).thumbs_up ∧
      r.thumbs_down ≤ ({ sampleRow with thumbs_up := 1 } : PropRow).thumbs_down :=
  (C2_counters_monotone_under_vote_and_create sampleDb 1 { vote := some "up" } 1).1
    { sampleRow with thumbs_up := 1 } (by decide)

theorem voteUpStep_atomic {db : DB} {id : Nat} {p : Property} {r : PropRow}
    (h : getPropertyById db id = some p)
    (hfind : db.props.find? (fun w => w.id == id) = some r) :
    voteUpStep id (voteUpStep id (.start, db)) =
      (.done, (votePropertyHandler db id { vote := some "up" }).db) := by
  rw [vote_up_eq h hfind none]
  simp [voteUpStep, h, updateProperty_found hfind]

/-- C1 counterexample: two concurrent vote(1, up) requests on a property
with both counters 0, interleaved read/read/write/write (the schedule the
event loop permits because the handler reads the counter and writes back an
incremented copy in application code), both run to completion yet leave
thumbsUp = 1, not the 2 the claim requires. -/

theorem C1_lost_update_counterexample :
    (runVoteSchedule 1 [true, false, true, false] (.start, .start, sampleDb)).1 = .done ∧
    (runVoteSchedule 1 [true, false, true, false] (.start, .start, sampleDb)).2.1 = .done ∧
    ((runVoteSchedule 1 [true, false, true, false]
        (.start, .start, sampleDb)).2.2.props.find? (fun w => w.id == 1)).map
      PropRow.thumbs_up = some 1 ∧
    ¬(((runVoteSchedule 1 [true, false, true, false]
        (.start, .start, sampleDb)).2.2.props.find? (fun w => w.id == 1)).map
      PropRow.thumbs_up = some 2) := by
  refine ⟨by decide, by decide, by decide, by decide⟩

/-- C1 (amended): the vote handler increments the counter by reading the
current value and writing back an incremented copy in application code (its
database effect is exactly that read-modify-write composition, not a
storage-level increment); N sequential vote(id, up) calls therefore leave
thumbsUp raised by exactly N, but interleaved concurrent calls can lose
updates. -/

theorem C1_vote_read_modify_write
    (db : DB) (id : Nat) (p : Property) (h : getPropertyById db id = some p) :
    (votePropertyHandler db id { vote := some "up" }).db =
      (updateProperty db id { thumbsUp := some (jsNumOr0 p.thumbsUp + 1) }).1 ∧
    ∀ n : Nat, ∃ q, getPropertyById (iterVoteUp db id n) id = some q ∧
      q.thumbsUp = p.thumbsUp + n ∧ q.thumbsDown = p.thumbsDown := by
  obtain ⟨r, hfind, hp, hrid⟩ := getPropertyById_eq_some h
  constructor
  · rw [vote_up_eq h hfind none, updateProperty]
  · intro n
    induction n generalizing db p r with
    | zero => exact ⟨p, by simpa using h, by simp, rfl⟩
    | succ n ih =>
        have hnext : getPropertyById (votePropertyHandler db id { vote := some "up" }).db id =
            some (rowToProperty (applyUpdates r { thumbsUp := some (jsNumOr0 p.thumbsUp + 1) })) := by
          rw [vote_up_eq h hfind none]
          simp only [getPropertyById]
          rw [find?_map_key (fun w : PropRow => w.id)
            (fun w => if w.id = id then
              applyUpdates w { thumbsUp := some (jsNumOr0 p.thumbsUp + 1) } else w)
            (fun w => by by_cases hw : w.id = id <;> simp [hw, applyUpdates_id])
            db.props id, hfind]
          simp [hrid]
        have hfind' : (votePropertyHandler db id { vote := some "up" }).db.props.find?
            (fun w => w.id == id) =
            some (applyUpdates r { thumbsUp := some (jsNumOr0 p.thumbsUp + 1) }) := by
          rw [vote_up_eq h hfind none]
          rw [find?_map_key (fun w : PropRow => w.id)
            (fun w => if w.id = id then
              applyUpdates w { thumbsUp := some (jsNumOr0 p.thumbsUp + 1) } else w)
            (fun w => by by_cases hw : w.id = id <;> simp [hw, applyUpdates_id])
            db.props id, hfind]
          simp [hrid]
        obtain ⟨q, hq, hqu, hqd⟩ := ih
          (votePropertyHandler db id { vote := some "up" }).db
          (rowToProperty (applyUpdates r { thumbsUp := some (jsNumOr0 p.thumbsUp + 1) }))
          hnext
          (applyUpdates r { thumbsUp := some (jsNumOr0 p.thumbsUp + 1) })
          hfind' rfl (by simp [applyUpdates_id, hrid])
        refine ⟨q, ?_, ?_, ?_⟩
        · rw [iterVoteUp]; exact hq
        · rw [hqu]
          simp [rowToProperty, applyUpdates, jsNumOr0_eq]
          ring
        · rw [hqd, hp]
          simp [rowToProperty, applyUpdates, jsNumOr0_eq]

/-- Witness for C1: three sequential votes on the sample store. -/

theorem C1_witness :
    ∃ q, getPropertyById (iterVoteUp sampleDb 1 3) 1 = some q ∧
      q.thumbsUp = (rowToProperty sampleRow).thumbsUp + 3 ∧
      q.thumbsDown = (rowToProperty sampleRow).thumbsDown :=
  (C1_vote_read_modify_write sampleDb 1 (rowToProperty sampleRow) (by decide)).2 3

/-- C7: a two-element numeric coordinate array given to createProperty is
stringified into the coordinates TEXT column and parsed back by
getPropertyById into exactly the same two-element array (and the created
property is what the fresh-id read returns). -/

theorem C7_coordinates_roundtrip
    (db : DB) (input : PropInput) (a b : JNum) (addr : String)
    (hc : input.coordinates = some [a, b])
    (haddr : input.address = some addr)
    (hfresh : ∀ r ∈ db.props, r.id ≠ db.nextPropId) :
    ∃ db' p, createProperty db input = .ok (db', p) ∧
      p.coordinates = some [a, b] ∧
      p.position = some [a, b] ∧
      getPropertyById db' p.id = some p := by
  have hrt : parseCoords (stringifyCoords [a, b]) = some [a, b] :=
    parseCoords_stringifyCoords (by simp)
  simp only [createProperty, haddr, hc]
  refine ⟨_, _, rfl, ?_, ?_, ?_⟩
  · show (some (stringifyCoords [a, b])).bind parseCoords = some [a, b]
    simpa using hrt
  · show (some (stringifyCoords [a, b])).bind parseCoords = some [a, b]
    simpa using hrt
  · show ((db.props ++ [_]).find? (fun w : PropRow => w.id == db.nextPropId)).map rowToProperty = _
    have hnone : db.props.find? (fun w => w.id == db.nextPropId) = none := by
      rw [List.find?_eq_none]
      intro x hx
      simpa using hfresh x hx
    rw [find?_append_of_none hnone]
    simp [List.find?]

/-- Witness for C7 at the end-to-end scenario coordinates [40.035, -83.025]. -/

theorem C7_witness :
    ∃ db' p, createProperty emptyDb
        { address := some "123 Main St"
          coordinates := some [⟨40035, 3⟩, ⟨-83025, 3⟩] } = .ok (db', p) ∧
      p.coordinates = some [⟨40035, 3⟩, ⟨-83025, 3⟩] ∧
      p.position = some [⟨40035, 3⟩, ⟨-83025, 3⟩] ∧
      getPropertyById db' p.id = some p :=
  C7_coordinates_roundtrip emptyDb
    { address := some "123 Main St", coordinates := some [⟨40035, 3⟩, ⟨-83025, 3⟩] }
    ⟨40035, 3⟩ ⟨-83025, 3⟩ "123 Main St" rfl rfl (by decide)

end Cvgd
